import Mathlib

/-
  Verification development for the portfolio page controller
  (src/script.js and its unnamed variant src/unnamed/part_000).

  The script is UI glue: a persisted dark/light theme toggle and a
  page-by-page scroll navigation controller.  We give a shallow embedding:
  DOM and browser state that the handlers read is passed explicitly, the
  mutable module-level variables (sections, currentIndex, locked,
  lockTimer, wheelAccum, wheelResetTimer) become fields of a state record,
  handlers become pure state transformers that additionally report their
  observable effects (the scroll command issued, whether preventDefault
  was called, which navigation was triggered).  Timer callbacks
  (the lock safety timeout, the wheel-accumulator reset) are modelled as
  separate transition functions that can fire on a state in which the
  corresponding timer is armed.  JS numbers holding integral pixel
  quantities are modelled as Int; element bounding-rect tops are the
  viewport-relative `rect.top` values the code reads.
-/

namespace Portfolio

/-! ## Constants (script.js lines 15, 41-44; part_000 lines 7-15) -/

def THEME_KEY : String := "themeMode"

def HEADER_OFFSET : Int := 80

def WHEEL_ACCUM_THRESHOLD : Nat := 60

def WHEEL_RESET_MS : Nat := 140

/-- MAX_LOCK_MS in script.js (line 44). -/
def MAX_LOCK_MS : Nat := 900

/-- MAX_LOCK_MS in the unnamed variant part_000 (line 15). -/
def MAX_LOCK_MS_V : Nat := 1300

/-! ## Theme controller (script.js lines 17-38)

The DOM state the theme code touches: whether `document.body` carries the
"light" class, and the `#themeSwitch` checkbox (`none` when the element is
absent from the document, `some checked` when present).  localStorage is
the value stored under THEME_KEY (`none` when the key is absent). -/

structure ThemeDom where
  bodyLight : Bool
  themeSwitch : Option Bool
deriving Repr, DecidableEq

/-- Result of `applyTheme`: the updated DOM, the value now persisted under
THEME_KEY, and whether `stabilizeAfterThemeSwitch` was invoked. -/
structure ThemeResult where
  dom : ThemeDom
  store : Option String
  stabilized : Bool
deriving Repr, DecidableEq

/-- applyTheme (script.js lines 17-26): toggles the "light" body class to
`mode === "light"`, writes `mode` to localStorage under THEME_KEY, mirrors
`mode === "light"` into the `#themeSwitch` checkbox when that element
exists, then calls `stabilizeAfterThemeSwitch`. -/
def applyTheme (mode : String) (dom : ThemeDom) (_store : Option String) : ThemeResult :=
  let dom1 : ThemeDom := { dom with bodyLight := mode == "light" }
  let store1 : Option String := some mode
  let dom2 : ThemeDom :=
    match dom1.themeSwitch with
    | some _ => { dom1 with themeSwitch := some (mode == "light") }
    | none => dom1
  { dom := dom2, store := store1, stabilized := true }

/-- The ternary `saved === "light" ? "light" : "dark"` of initTheme
(script.js line 30), where `saved` is the value read from localStorage. -/
def initThemeMode (store : Option String) : String :=
  if store = some "light" then "light" else "dark"

/-- initTheme (script.js lines 28-38): reads the persisted mode, applies it
(defaulting to dark), and installs a change listener on `#themeSwitch` when
that element exists.  The second component reports whether the listener was
installed. -/
def initTheme (dom : ThemeDom) (store : Option String) : ThemeResult × Bool :=
  let r := applyTheme (initThemeMode store) dom store
  (r, dom.themeSwitch.isSome)

/-! ## Navigation controller state -/

/-- The module-level mutable variables of the scroll controller
(script.js lines 46-53).  `sections` holds the viewport-relative
`getBoundingClientRect().top` of each `section[id]` element, in document
order.  `lockTimer`/`wheelResetTimer` record whether the corresponding
setTimeout is pending (for the lock timer, with its delay). -/
structure NavState where
  sections : List Int
  currentIndex : Int
  locked : Bool
  lockTimer : Option Nat
  wheelAccum : Int
  wheelResetTimer : Bool
deriving Repr, DecidableEq

/-- clamp (script.js lines 62-64): `Math.max(min, Math.min(max, n))`. -/
def clamp (n mn mx : Int) : Int := max mn (min mx n)

/-- The per-section distance `Math.abs(rect.top - HEADER_OFFSET)` computed
inside nearestSectionIndex (script.js line 96). -/
def secDist (top : Int) : Nat := (top - HEADER_OFFSET).natAbs

/-- The forEach loop of nearestSectionIndex (script.js lines 94-101),
threading the loop state `(bestIdx, bestDist)`; `none` is the initial
`Infinity` distance, against which every comparison succeeds. -/
def nearestGo : List Int → Nat → Nat → Option Nat → Nat × Option Nat
  | [], _, bi, bd => (bi, bd)
  | t :: rest, idx, _, none => nearestGo rest (idx + 1) idx (some (secDist t))
  | t :: rest, idx, bi, some b =>
    if secDist t < b then nearestGo rest (idx + 1) idx (some (secDist t))
    else nearestGo rest (idx + 1) bi (some b)

/-- nearestSectionIndex (script.js lines 90-104): index of the section
whose top is nearest HEADER_OFFSET, starting from `bestIdx = 0`,
`bestDist = Infinity`. -/
def nearestSectionIndex (tops : List Int) : Nat :=
  (nearestGo tops 0 0 none).1

/-- syncState (script.js lines 106-110): re-reads the section list from the
DOM (passed here as `domSections`), and when it is non-empty recomputes
`currentIndex` as the nearest section index. -/
def syncState (domSections : List Int) (st : NavState) : NavState :=
  let st1 := { st with sections := domSections }
  if domSections.length = 0 then st1
  else { st1 with currentIndex := (nearestSectionIndex domSections : Int) }

/-- lockInput (script.js lines 120-126): sets the locked flag and (re)arms
the safety timeout that fires after MAX_LOCK_MS. -/
def lockInput (st : NavState) : NavState :=
  { st with locked := true, lockTimer := some MAX_LOCK_MS }

/-- lockInput of the unnamed variant (part_000 lines 92-99): identical code
with the variant constant MAX_LOCK_MS = 1300. -/
def lockInputV (st : NavState) : NavState :=
  { st with locked := true, lockTimer := some MAX_LOCK_MS_V }

/-- The safety-timeout callback `() => { locked = false; }` armed by
lockInput (script.js lines 123-125), firing the pending lock timer. -/
def fireLockTimer (st : NavState) : NavState :=
  { st with locked := false, lockTimer := none }

/-- unlockInput (script.js lines 128-132). -/
def unlockInput (st : NavState) : NavState :=
  { st with locked := false, lockTimer := none }

/-- jumpToIndex (script.js lines 134-150).  Returns the updated controller
state and the scroll command `window.scrollTo({top, behavior})` issued
(`none` when the section list is empty and the function returns at once).
The scheduled completion step `setTimeout(() => {syncState(); unlockInput();})`
is modelled by the separate transitions `syncState` / `unlockInput`. -/
def jumpToIndex (st : NavState) (scrollY : Int) (idx : Int) (behavior : String) :
    NavState × Option (Int × String) :=
  if st.sections.length = 0 then (st, none)
  else
    let _ci0 : Int := (nearestSectionIndex st.sections : Int)
    let ci : Int := clamp idx 0 ((st.sections.length : Int) - 1)
    let targetTop : Int := scrollY + st.sections.getD ci.toNat 0 - HEADER_OFFSET
    (lockInput { st with currentIndex := ci }, some (targetTop, behavior))

/-- next (script.js line 152). -/
def next (st : NavState) (scrollY : Int) : NavState × Option (Int × String) :=
  jumpToIndex st scrollY (st.currentIndex + 1) "smooth"

/-- prev (script.js line 153). -/
def prev (st : NavState) (scrollY : Int) : NavState × Option (Int × String) :=
  jumpToIndex st scrollY (st.currentIndex - 1) "smooth"

/-- scrollToIndex of the unnamed variant (part_000 lines 137-147): clamps
the target index, locks with the variant constant, and issues
`sections[currentIndex].scrollIntoView(...)`; the second component is the
index scrolled into view.  The `waitForSettle` completion is modelled by
the separate `syncState` / `unlockInput` / `fireLockTimer` transitions. -/
def scrollToIndex (st : NavState) (idx : Int) : NavState × Option Nat :=
  if st.sections.length = 0 then (st, none)
  else
    let _ci0 : Int := (nearestSectionIndex st.sections : Int)
    let ci : Int := clamp idx 0 ((st.sections.length : Int) - 1)
    (lockInputV { st with currentIndex := ci }, some ci.toNat)

/-- next of the unnamed variant (part_000 line 149). -/
def nextV (st : NavState) : NavState × Option Nat :=
  scrollToIndex st (st.currentIndex + 1)

/-- prev of the unnamed variant (part_000 line 150). -/
def prevV (st : NavState) : NavState × Option Nat :=
  scrollToIndex st (st.currentIndex - 1)

/-! ## Input-handler guards (script.js lines 66-88) -/

/-- The `document.activeElement`, as far as isTyping inspects it. -/
structure ActiveEl where
  tagName : String
  isContentEditable : Bool
deriving Repr, DecidableEq

/-- The DOM state the handler guards read: the inline `style.display` of
the `#viewer` element (`none` when the element is absent) and the active
element (`none` when null). -/
structure Dom where
  viewerDisplay : Option String
  activeEl : Option ActiveEl
deriving Repr, DecidableEq

/-- isOverlayOpen (script.js lines 66-69):
`viewer && viewer.style.display === "flex"`. -/
def isOverlayOpen (dom : Dom) : Bool :=
  match dom.viewerDisplay with
  | none => false
  | some d => d == "flex"

/-- isTyping (script.js lines 71-76). -/
def isTyping (dom : Dom) : Bool :=
  match dom.activeEl with
  | none => false
  | some el =>
    let tag := el.tagName.toLower
    tag == "input" || tag == "textarea" || el.isContentEditable

/-- An event target, as far as isInsideScrollable inspects it: the
`(scrollHeight, clientHeight)` of the closest `.project-info` ancestor
when one exists, and whether a `textarea` ancestor exists. -/
structure EvTarget where
  projectInfo : Option (Int × Int)
  inTextarea : Bool
deriving Repr, DecidableEq

/-- isInsideScrollable (script.js lines 78-88); `none` is a null target. -/
def isInsideScrollable (target : Option EvTarget) : Bool :=
  match target with
  | none => false
  | some t =>
    if (match t.projectInfo with
        | some (sh, ch) => decide (ch < sh)
        | none => false) then true
    else t.inTextarea

/-! ## Wheel handler (script.js lines 155-180) -/

/-- Direction of a triggered navigation. -/
inductive NavDir
  | dnext
  | dprev
deriving Repr, DecidableEq

/-- A wheel event, as far as onWheel inspects it. -/
structure WheelEvent where
  deltaY : Int
  target : Option EvTarget
deriving Repr, DecidableEq

/-- The reset callback `() => { wheelAccum = 0; }` armed by onWheel
(script.js line 168), firing the pending WHEEL_RESET_MS timer. -/
def fireWheelReset (st : NavState) : NavState :=
  { st with wheelAccum := 0, wheelResetTimer := false }

/-- onWheel (script.js lines 155-180).  Returns the updated state, whether
`e.preventDefault()` was called, and which navigation (if any) was
triggered. -/
def onWheel (dom : Dom) (scrollY : Int) (st : NavState) (e : WheelEvent) :
    NavState × Bool × Option NavDir :=
  if isOverlayOpen dom then (st, false, none)
  else if isTyping dom then (st, false, none)
  else if isInsideScrollable e.target then (st, false, none)
  else if st.locked then (st, true, none)
  else
    let acc := st.wheelAccum + e.deltaY
    let st1 := { st with wheelAccum := acc, wheelResetTimer := true }
    if acc.natAbs < WHEEL_ACCUM_THRESHOLD then (st1, false, none)
    else
      let st2 := { st1 with wheelAccum := 0 }
      if 0 < acc then ((next st2 scrollY).1, true, some NavDir.dnext)
      else ((prev st2 scrollY).1, true, some NavDir.dprev)

/-! ## Keydown handler (script.js lines 182-201) -/

/-- Navigation action triggered by a key. -/
inductive KAction
  | knext
  | kprev
  | khome
  | kend
deriving Repr, DecidableEq

/-- A keydown event, as far as onKeyDown inspects it; `isRepeat` is the
`e.repeat` auto-repeat flag. -/
structure KeyEvent where
  key : String
  isRepeat : Bool
deriving Repr, DecidableEq

/-- nextKeys (script.js line 187). -/
def nextKeys : List String := ["ArrowDown", "PageDown", " "]

/-- prevKeys (script.js line 188). -/
def prevKeys : List String := ["ArrowUp", "PageUp"]

/-- The spread list `[...nextKeys, ...prevKeys, "Home", "End"]` of
script.js line 190. -/
def allNavKeys : List String := nextKeys ++ prevKeys ++ ["Home", "End"]

/-- onKeyDown (script.js lines 182-201).  Returns the updated state,
whether `e.preventDefault()` was called, and which navigation (if any) was
triggered.  The final fallthrough (a key in the list matching no branch)
cannot occur but mirrors the source returning undefined. -/
def onKeyDown (dom : Dom) (scrollY : Int) (st : NavState) (e : KeyEvent) :
    NavState × Bool × Option KAction :=
  if isOverlayOpen dom then (st, false, none)
  else if isTyping dom then (st, false, none)
  else if !(allNavKeys.contains e.key) then (st, false, none)
  else if st.locked then (st, true, none)
  else if e.isRepeat then (st, true, none)
  else if nextKeys.contains e.key then ((next st scrollY).1, true, some KAction.knext)
  else if prevKeys.contains e.key then ((prev st scrollY).1, true, some KAction.kprev)
  else if e.key == "Home" then ((jumpToIndex st scrollY 0 "smooth").1, true, some KAction.khome)
  else if e.key == "End" then
    ((jumpToIndex st scrollY ((st.sections.length : Int) - 1) "smooth").1, true, some KAction.kend)
  else (st, true, none)

/-! ## Example states used by witness instantiations -/

/-- A concrete controller state with three sections. -/
def navSt1 : NavState :=
  { sections := [0, 600, 1200], currentIndex := 0, locked := false,
    lockTimer := none, wheelAccum := 0, wheelResetTimer := false }

/-- A concrete DOM with no viewer overlay and no focused element. -/
def domIdle : Dom := { viewerDisplay := none, activeEl := none }

/-! ## Claim theorems -/

/-- C1: jumpToIndex (and the variant scrollToIndex) sets the current index
to clamp(idx, 0, length-1) whenever the section list is non-empty; in
particular an index one past the end (next at the last section) clamps to
the last index, an index -1 (prev at index 0) clamps to 0, and the
resulting current index always lies in [0, length-1]. -/
theorem jumpToIndex_clamps (st : NavState) (y idx : Int) (b : String)
    (h : st.sections ≠ []) :
    (jumpToIndex st y idx b).1.currentIndex = clamp idx 0 ((st.sections.length : Int) - 1)
    ∧ 0 ≤ (jumpToIndex st y idx b).1.currentIndex
    ∧ (jumpToIndex st y idx b).1.currentIndex < (st.sections.length : Int)
    ∧ (jumpToIndex st y ((st.sections.length : Int)) b).1.currentIndex
        = (st.sections.length : Int) - 1
    ∧ (jumpToIndex st y (-1) b).1.currentIndex = 0
    ∧ (scrollToIndex st idx).1.currentIndex = clamp idx 0 ((st.sections.length : Int) - 1)
    ∧ 0 ≤ (scrollToIndex st idx).1.currentIndex
    ∧ (scrollToIndex st idx).1.currentIndex < (st.sections.length : Int) := by
  have hlen : st.sections.length ≠ 0 := by
    simpa [List.length_eq_zero] using h
  have hlen1 : 1 ≤ (st.sections.length : Int) := by
    have := Nat.one_le_iff_ne_zero.mpr hlen
    exact_mod_cast this
  simp only [jumpToIndex, scrollToIndex, lockInput, lockInputV, hlen, if_neg, clamp]
  refine ⟨by simp [hlen], ?_, ?_, ?_, ?_, by simp [hlen], ?_, ?_⟩ <;>
    simp [hlen] <;> omega

/-- C1 witness: the theorem instantiated at a concrete three-section state
with idx = 5. -/
theorem jumpToIndex_clamps_witness :
    navSt1.sections ≠ [] ∧
    ((jumpToIndex navSt1 0 5 "smooth").1.currentIndex
        = clamp 5 0 ((navSt1.sections.length : Int) - 1)
      ∧ 0 ≤ (jumpToIndex navSt1 0 5 "smooth").1.currentIndex
      ∧ (jumpToIndex navSt1 0 5 "smooth").1.currentIndex < (navSt1.sections.length : Int)
      ∧ (jumpToIndex navSt1 0 ((navSt1.sections.length : Int)) "smooth").1.currentIndex
          = (navSt1.sections.length : Int) - 1
      ∧ (jumpToIndex navSt1 0 (-1) "smooth").1.currentIndex = 0
      ∧ (scrollToIndex navSt1 5).1.currentIndex
          = clamp 5 0 ((navSt1.sections.length : Int) - 1)
      ∧ 0 ≤ (scrollToIndex navSt1 5).1.currentIndex
      ∧ (scrollToIndex navSt1 5).1.currentIndex < (navSt1.sections.length : Int)) :=
  ⟨by decide, jumpToIndex_clamps navSt1 0 5 "smooth" (by decide)⟩

/-- C3: initTheme applies light mode exactly when the value persisted under
themeMode is the string "light", and dark mode for every other value,
including an absent key (default dark); the applied mode is passed to
applyTheme unchanged. -/
theorem initTheme_default_dark (dom : ThemeDom) (store : Option String) :
    (initTheme dom store).1 = applyTheme (initThemeMode store) dom store
    ∧ (initThemeMode store = "light" ↔ store = some "light")
    ∧ (initThemeMode store = "dark" ↔ ¬store = some "light")
    ∧ ((initTheme dom store).1.dom.bodyLight = true ↔ store = some "light") := by
  by_cases hst : store = some "light" <;>
    simp [initTheme, initThemeMode, applyTheme, hst] <;>
    cases dom.themeSwitch <;> simp

/-- C4: applyTheme always persists the given mode under themeMode, toggles
the body class "light" to whether the mode is "light", mirrors that value
into the themeSwitch checkbox exactly when the element is present, and
triggers the stabilization step. -/
theorem applyTheme_persists (mode : String) (dom : ThemeDom) (store : Option String) :
    (applyTheme mode dom store).store = some mode
    ∧ (applyTheme mode dom store).dom.bodyLight = (mode == "light")
    ∧ (applyTheme mode dom store).dom.themeSwitch
        = dom.themeSwitch.map (fun _ => mode == "light")
    ∧ (applyTheme mode dom store).stabilized = true := by
  obtain ⟨bl, sw⟩ := dom
  cases sw <;> simp [applyTheme]

/-- C6: lockInput sets the locked flag and arms the safety timeout with
delay exactly MAX_LOCK_MS (900 ms in script.js, 1300 ms in the unnamed
variant via lockInputV), and firing that timeout clears the flag, so a
missed completion step cannot leave the controller permanently locked. -/
theorem lockInput_safety_timeout (st : NavState) :
    (lockInput st).locked = true
    ∧ (lockInput st).lockTimer = some MAX_LOCK_MS
    ∧ (fireLockTimer (lockInput st)).locked = false
    ∧ (lockInputV st).locked = true
    ∧ (lockInputV st).lockTimer = some MAX_LOCK_MS_V
    ∧ (fireLockTimer (lockInputV st)).locked = false
    ∧ MAX_LOCK_MS = 900 ∧ MAX_LOCK_MS_V = 1300 := by
  simp [lockInput, lockInputV, fireLockTimer, MAX_LOCK_MS, MAX_LOCK_MS_V]

/-- C9: with the themeSwitch element absent, applyTheme still toggles the
body class, persists the mode and triggers stabilization while skipping
only the checkbox mirroring, and initTheme skips installing the change
listener. -/
theorem applyTheme_missing_switch (bl : Bool) (mode : String) (store : Option String) :
    (applyTheme mode ⟨bl, none⟩ store).dom.themeSwitch = none
    ∧ (applyTheme mode ⟨bl, none⟩ store).dom.bodyLight = (mode == "light")
    ∧ (applyTheme mode ⟨bl, none⟩ store).store = some mode
    ∧ (applyTheme mode ⟨bl, none⟩ store).stabilized = true
    ∧ (initTheme ⟨bl, none⟩ store).2 = false := by
  simp [applyTheme, initTheme]

/-- C5: a keydown event with the auto-repeat flag set triggers no
navigation and leaves the controller state unchanged; its only effect is
preventDefault, which is called exactly when no guard fired and the key is
a navigation key. -/
theorem onKeyDown_ignores_repeat (dom : Dom) (y : Int) (st : NavState) (e : KeyEvent)
    (h : e.isRepeat = true) :
    (onKeyDown dom y st e).1 = st
    ∧ (onKeyDown dom y st e).2.2 = none
    ∧ (onKeyDown dom y st e).2.1
        = (!isOverlayOpen dom && !isTyping dom && allNavKeys.contains e.key) := by
  by_cases hov : isOverlayOpen dom <;>
    by_cases hty : isTyping dom <;>
    by_cases hk : e.key ∈ allNavKeys <;>
    by_cases hlk : st.locked <;>
    simp [onKeyDown, hov, hty, hk, hlk, h]

/-- C5 witness: a concrete auto-repeated ArrowDown keydown. -/
theorem onKeyDown_ignores_repeat_witness :
    (KeyEvent.mk "ArrowDown" true).isRepeat = true ∧
    ((onKeyDown domIdle 0 navSt1 (KeyEvent.mk "ArrowDown" true)).1 = navSt1
      ∧ (onKeyDown domIdle 0 navSt1 (KeyEvent.mk "ArrowDown" true)).2.2 = none
      ∧ (onKeyDown domIdle 0 navSt1 (KeyEvent.mk "ArrowDown" true)).2.1
          = (!isOverlayOpen domIdle && !isTyping domIdle
              && allNavKeys.contains (KeyEvent.mk "ArrowDown" true).key)) :=
  ⟨by decide, onKeyDown_ignores_repeat domIdle 0 navSt1 (KeyEvent.mk "ArrowDown" true) (by decide)⟩

/-- C7: while a text input, textarea or content-editable element is focused,
or while the viewer overlay has inline display flex, onWheel and onKeyDown
return immediately: no navigation, no state change, no preventDefault. -/
theorem handlers_ignore_overlay_and_typing (dom : Dom) (y : Int) (st : NavState)
    (e : WheelEvent) (ke : KeyEvent)
    (h : isTyping dom = true ∨ dom.viewerDisplay = some "flex") :
    onWheel dom y st e = (st, false, none)
    ∧ onKeyDown dom y st ke = (st, false, none) := by
  rcases h with hty | hfl
  · by_cases hov : isOverlayOpen dom <;> simp [onWheel, onKeyDown, hov, hty]
  · have hov : isOverlayOpen dom = true := by simp [isOverlayOpen, hfl]
    simp [onWheel, onKeyDown, hov]

/-- C7 witness: the viewer overlay open (inline display flex) at a concrete
state with a concrete wheel and keydown event. -/
theorem handlers_ignore_overlay_and_typing_witness :
    (isTyping (Dom.mk (some "flex") none) = true
      ∨ (Dom.mk (some "flex") none).viewerDisplay = some "flex") ∧
    (onWheel (Dom.mk (some "flex") none) 0 navSt1 (WheelEvent.mk 100 none)
        = (navSt1, false, none)
      ∧ onKeyDown (Dom.mk (some "flex") none) 0 navSt1 (KeyEvent.mk "ArrowDown" false)
        = (navSt1, false, none)) :=
  ⟨Or.inr rfl,
    handlers_ignore_overlay_and_typing (Dom.mk (some "flex") none) 0 navSt1
      (WheelEvent.mk 100 none) (KeyEvent.mk "ArrowDown" false) (Or.inr rfl)⟩

/-- C10: with an empty section list, jumpToIndex, scrollToIndex, next and
prev (both variants) are total no-ops issuing no scroll command and
acquiring no lock, and syncState over an empty DOM section list leaves the
current index, the locked flag and the lock timer untouched. -/
theorem navigation_noop_when_empty (st : NavState) (y idx : Int) (b : String)
    (h : st.sections = []) :
    jumpToIndex st y idx b = (st, none)
    ∧ scrollToIndex st idx = (st, none)
    ∧ next st y = (st, none)
    ∧ prev st y = (st, none)
    ∧ nextV st = (st, none)
    ∧ prevV st = (st, none)
    ∧ (syncState [] st).currentIndex = st.currentIndex
    ∧ (syncState [] st).locked = st.locked
    ∧ (syncState [] st).lockTimer = st.lockTimer := by
  simp [jumpToIndex, scrollToIndex, next, prev, nextV, prevV, syncState, h]

/-- C10 witness: a concrete state with no sections. -/
theorem navigation_noop_when_empty_witness :
    (NavState.mk [] 0 false none 0 false).sections = [] ∧
    (jumpToIndex (NavState.mk [] 0 false none 0 false) 0 3 "smooth"
        = (NavState.mk [] 0 false none 0 false, none)
      ∧ scrollToIndex (NavState.mk [] 0 false none 0 false) 3
        = (NavState.mk [] 0 false none 0 false, none)
      ∧ next (NavState.mk [] 0 false none 0 false) 0
        = (NavState.mk [] 0 false none 0 false, none)
      ∧ prev (NavState.mk [] 0 false none 0 false) 0
        = (NavState.mk [] 0 false none 0 false, none)
      ∧ nextV (NavState.mk [] 0 false none 0 false)
        = (NavState.mk [] 0 false none 0 false, none)
      ∧ prevV (NavState.mk [] 0 false none 0 false)
        = (NavState.mk [] 0 false none 0 false, none)
      ∧ (syncState [] (NavState.mk [] 0 false none 0 false)).currentIndex
        = (NavState.mk [] 0 false none 0 false).currentIndex
      ∧ (syncState [] (NavState.mk [] 0 false none 0 false)).locked
        = (NavState.mk [] 0 false none 0 false).locked
      ∧ (syncState [] (NavState.mk [] 0 false none 0 false)).lockTimer
        = (NavState.mk [] 0 false none 0 false).lockTimer) :=
  ⟨by decide, navigation_noop_when_empty (NavState.mk [] 0 false none 0 false) 0 3 "smooth"
    (by decide)⟩

/-- Navigation never touches the wheel accumulator. -/
theorem jumpToIndex_preserves_wheelAccum (st : NavState) (y idx : Int) (b : String) :
    (jumpToIndex st y idx b).1.wheelAccum = st.wheelAccum := by
  unfold jumpToIndex
  split <;> simp [lockInput]

/-- Navigation never touches the wheel reset timer. -/
theorem jumpToIndex_preserves_wheelResetTimer (st : NavState) (y idx : Int) (b : String) :
    (jumpToIndex st y idx b).1.wheelResetTimer = st.wheelResetTimer := by
  unfold jumpToIndex
  split <;> simp [lockInput]

/-- C2: with no guard active (no overlay, not typing, not inside a
scrollable, not locked), onWheel adds the vertical delta to the wheel
accumulator and arms the reset timer; a navigation fires exactly when the
absolute accumulated sum reaches WHEEL_ACCUM_THRESHOLD = 60 (next for a
positive sum, prev for a negative one), at which point the accumulator is
reset to 0 and the default is prevented; below the threshold no navigation
fires and native scroll is not blocked; the WHEEL_RESET_MS = 140 timer
callback resets the accumulator to 0. -/
theorem onWheel_threshold (dom : Dom) (y : Int) (st : NavState) (e : WheelEvent)
    (hov : isOverlayOpen dom = false) (hty : isTyping dom = false)
    (hsc : isInsideScrollable e.target = false) (hlk : st.locked = false) :
    ((onWheel dom y st e).2.2 =
      if WHEEL_ACCUM_THRESHOLD ≤ (st.wheelAccum + e.deltaY).natAbs then
        (if 0 < st.wheelAccum + e.deltaY then some NavDir.dnext else some NavDir.dprev)
      else none)
    ∧ ((onWheel dom y st e).1.wheelAccum =
        if WHEEL_ACCUM_THRESHOLD ≤ (st.wheelAccum + e.deltaY).natAbs then 0
        else st.wheelAccum + e.deltaY)
    ∧ ((onWheel dom y st e).2.1
        = decide (WHEEL_ACCUM_THRESHOLD ≤ (st.wheelAccum + e.deltaY).natAbs))
    ∧ ((onWheel dom y st e).1.wheelResetTimer = true)
    ∧ (fireWheelReset st).wheelAccum = 0
    ∧ WHEEL_ACCUM_THRESHOLD = 60 ∧ WHEEL_RESET_MS = 140 := by
  by_cases hthr : (st.wheelAccum + e.deltaY).natAbs < 60
  · have hthr2 : ¬60 ≤ (st.wheelAccum + e.deltaY).natAbs := by omega
    simp [onWheel, fireWheelReset, hov, hty, hsc, hlk, hthr, hthr2,
      WHEEL_ACCUM_THRESHOLD, WHEEL_RESET_MS]
  · have hthr2 : 60 ≤ (st.wheelAccum + e.deltaY).natAbs := by omega
    by_cases hpos : 0 < st.wheelAccum + e.deltaY <;>
      simp [onWheel, next, prev, fireWheelReset, hov, hty, hsc, hlk, hthr, hthr2, hpos,
        jumpToIndex_preserves_wheelAccum, jumpToIndex_preserves_wheelResetTimer,
        WHEEL_ACCUM_THRESHOLD, WHEEL_RESET_MS]

/-- C2 witness: a single wheel event with delta 70 from a zero accumulator
crosses the threshold and triggers next. -/
theorem onWheel_threshold_witness :
    isOverlayOpen domIdle = false ∧ isTyping domIdle = false
    ∧ isInsideScrollable (WheelEvent.mk 70 none).target = false
    ∧ navSt1.locked = false
    ∧ (((onWheel domIdle 0 navSt1 (WheelEvent.mk 70 none)).2.2 =
        if WHEEL_ACCUM_THRESHOLD ≤ (navSt1.wheelAccum + (WheelEvent.mk 70 none).deltaY).natAbs then
          (if 0 < navSt1.wheelAccum + (WheelEvent.mk 70 none).deltaY then some NavDir.dnext
            else some NavDir.dprev)
        else none)
      ∧ ((onWheel domIdle 0 navSt1 (WheelEvent.mk 70 none)).1.wheelAccum =
          if WHEEL_ACCUM_THRESHOLD ≤ (navSt1.wheelAccum + (WheelEvent.mk 70 none).deltaY).natAbs
          then 0 else navSt1.wheelAccum + (WheelEvent.mk 70 none).deltaY)
      ∧ ((onWheel domIdle 0 navSt1 (WheelEvent.mk 70 none)).2.1
          = decide (WHEEL_ACCUM_THRESHOLD
              ≤ (navSt1.wheelAccum + (WheelEvent.mk 70 none).deltaY).natAbs))
      ∧ ((onWheel domIdle 0 navSt1 (WheelEvent.mk 70 none)).1.wheelResetTimer = true)
      ∧ (fireWheelReset navSt1).wheelAccum = 0
      ∧ WHEEL_ACCUM_THRESHOLD = 60 ∧ WHEEL_RESET_MS = 140) :=
  ⟨by decide, by decide, by decide, by decide,
    onWheel_threshold domIdle 0 navSt1 (WheelEvent.mk 70 none)
      (by decide) (by decide) (by decide) (by decide)⟩

/-- A successful positional lookup determines getD. -/
theorem getD_eq_of_index (l : List Int) :
    ∀ i u, l.get? i = some u → l.getD i 0 = u := by
  induction l with
  | nil =>
    intro i u hu
    simp at hu
  | cons a l ih =>
    intro i u hu
    cases i with
    | zero =>
      simp at hu
      simp [hu]
    | succ n =>
      simp only [List.get?_cons_succ] at hu
      simpa using ih n u hu

/-- Loop invariant of the nearestSectionIndex forEach: starting from a best
candidate at distance `b`, the loop either keeps the candidate (when `b` is
at most every remaining distance) or ends on the position of the first
strict minimum of the remaining distances below `b`. -/
theorem nearestGo_spec (ts : List Int) : ∀ (idx bi b : Nat),
    ((nearestGo ts idx bi (some b)).1 = bi
      ∧ (nearestGo ts idx bi (some b)).2 = some b
      ∧ ∀ v ∈ ts, b ≤ secDist v)
    ∨ (∃ j u, (nearestGo ts idx bi (some b)).1 = idx + j
        ∧ ts.get? j = some u
        ∧ (nearestGo ts idx bi (some b)).2 = some (secDist u)
        ∧ secDist u < b
        ∧ (∀ v ∈ ts, secDist u ≤ secDist v)
        ∧ (∀ v ∈ ts.take j, secDist u < secDist v)) := by
  induction ts with
  | nil =>
    intro idx bi b
    left
    exact ⟨rfl, rfl, by intro v hv; simp at hv⟩
  | cons t ts ih =>
    intro idx bi b
    by_cases hd : secDist t < b
    · have heq : nearestGo (t :: ts) idx bi (some b)
          = nearestGo ts (idx + 1) idx (some (secDist t)) := by
        simp [nearestGo, hd]
      rcases ih (idx + 1) idx (secDist t) with ⟨h1, h2, h3⟩ | ⟨j, u, h1, hg, h2, h3, h4, h5⟩
      · right
        refine ⟨0, t, ?_, rfl, ?_, hd, ?_, ?_⟩
        · rw [heq, h1]
          omega
        · rw [heq, h2]
        · intro v hv
          rcases List.mem_cons.mp hv with hv | hv
          · subst hv
            exact Nat.le_refl _
          · exact h3 v hv
        · intro v hv
          simp at hv
      · right
        refine ⟨j + 1, u, ?_, ?_, ?_, ?_, ?_, ?_⟩
        · rw [heq, h1]
          omega
        · simpa using hg
        · rw [heq, h2]
        · exact Nat.lt_trans h3 hd
        · intro v hv
          rcases List.mem_cons.mp hv with hv | hv
          · subst hv
            exact Nat.le_of_lt h3
          · exact h4 v hv
        · intro v hv
          rw [List.take_succ_cons] at hv
          rcases List.mem_cons.mp hv with hv | hv
          · subst hv
            exact h3
          · exact h5 v hv
    · have hbd : b ≤ secDist t := Nat.le_of_not_lt hd
      have heq : nearestGo (t :: ts) idx bi (some b)
          = nearestGo ts (idx + 1) bi (some b) := by
        simp [nearestGo, hd]
      rcases ih (idx + 1) bi b with ⟨h1, h2, h3⟩ | ⟨j, u, h1, hg, h2, h3, h4, h5⟩
      · left
        refine ⟨by rw [heq, h1], by rw [heq, h2], ?_⟩
        intro v hv
        rcases List.mem_cons.mp hv with hv | hv
        · subst hv
          exact hbd
        · exact h3 v hv
      · right
        refine ⟨j + 1, u, ?_, by simpa using hg, by rw [heq, h2], h3, ?_, ?_⟩
        · rw [heq, h1]
          omega
        · intro v hv
          rcases List.mem_cons.mp hv with hv | hv
          · subst hv
            exact Nat.le_of_lt (Nat.lt_of_lt_of_le h3 hbd)
          · exact h4 v hv
        · intro v hv
          rw [List.take_succ_cons] at hv
          rcases List.mem_cons.mp hv with hv | hv
          · subst hv
            exact Nat.lt_of_lt_of_le h3 hbd
          · exact h5 v hv

/-- C8: on a non-empty section list, nearestSectionIndex returns a valid
index whose distance |top - HEADER_OFFSET| is at most the distance of every
section, and strictly below the distance of every earlier section (earliest
index on ties); syncState sets the current index to exactly this value. -/
theorem nearestSectionIndex_min (tops : List Int) (st : NavState) (h : tops ≠ []) :
    nearestSectionIndex tops < tops.length
    ∧ tops.all
        (fun v => decide (secDist (tops.getD (nearestSectionIndex tops) 0) ≤ secDist v)) = true
    ∧ (tops.take (nearestSectionIndex tops)).all
        (fun v => decide (secDist (tops.getD (nearestSectionIndex tops) 0) < secDist v)) = true
    ∧ (syncState tops st).currentIndex = (nearestSectionIndex tops : Int) := by
  match tops, h with
  | t :: ts, _ =>
    have hstep : nearestSectionIndex (t :: ts) = (nearestGo ts 1 0 (some (secDist t))).1 := by
      simp [nearestSectionIndex, nearestGo]
    have hsync : (syncState (t :: ts) st).currentIndex
        = (nearestSectionIndex (t :: ts) : Int) := by
      simp [syncState]
    rcases nearestGo_spec ts 1 0 (secDist t) with ⟨h1, h2, h3⟩ | ⟨j, u, h1, hg, h2, h3, h4, h5⟩
    · have hi : nearestSectionIndex (t :: ts) = 0 := by rw [hstep, h1]
      refine ⟨?_, ?_, ?_, hsync⟩
      · rw [hi]
        simp
      · rw [hi]
        rw [List.all_eq_true]
        intro v hv
        rcases List.mem_cons.mp hv with hv | hv
        · subst hv
          simp
        · simpa using h3 v hv
      · rw [hi]
        simp
    · have hj : j < ts.length := by
        by_contra hc
        rw [List.get?_eq_none.mpr (Nat.le_of_not_lt hc)] at hg
        simp at hg
      have hi : nearestSectionIndex (t :: ts) = 1 + j := by rw [hstep, h1]
      have hgetD : (t :: ts).getD (1 + j) 0 = u := by
        rw [Nat.add_comm]
        simpa using getD_eq_of_index ts j u hg
      refine ⟨?_, ?_, ?_, hsync⟩
      · rw [hi]
        simp
        omega
      · rw [hi, hgetD]
        rw [List.all_eq_true]
        intro v hv
        rcases List.mem_cons.mp hv with hv | hv
        · subst hv
          simpa using Nat.le_of_lt h3
        · simpa using h4 v hv
      · rw [hi, hgetD]
        have htake : (t :: ts).take (1 + j) = t :: ts.take j := by
          rw [Nat.add_comm, List.take_succ_cons]
        rw [htake, List.all_eq_true]
        intro v hv
        rcases List.mem_cons.mp hv with hv | hv
        · subst hv
          simpa using h3
        · simpa using h5 v hv

/-- C8 witness: on section tops [0, 100, 75] the index nearest the header
offset 80 is 2. -/
theorem nearestSectionIndex_min_witness :
    ([0, 100, 75] : List Int) ≠ [] ∧
    (nearestSectionIndex [0, 100, 75] < ([0, 100, 75] : List Int).length
      ∧ ([0, 100, 75] : List Int).all
          (fun v => decide
            (secDist (([0, 100, 75] : List Int).getD (nearestSectionIndex [0, 100, 75]) 0)
              ≤ secDist v)) = true
      ∧ (([0, 100, 75] : List Int).take (nearestSectionIndex [0, 100, 75])).all
          (fun v => decide
            (secDist (([0, 100, 75] : List Int).getD (nearestSectionIndex [0, 100, 75]) 0)
              < secDist v)) = true
      ∧ (syncState [0, 100, 75] navSt1).currentIndex
          = (nearestSectionIndex [0, 100, 75] : Int)) :=
  ⟨by decide, nearestSectionIndex_min [0, 100, 75] navSt1 (by decide)⟩

end Portfolio
